import Mathlib

/-!
# Rancher user API server: construction of the per-cluster request pipeline

A verification development over two files of the repository:

* `pkg/api/user/server/server.go`: the function `New`, which builds the API
  server of one cluster (access control, URL parser, store wrapper, schemas);
* `vendor/github.com/rancher/types/apis/management.cattle.io/v3/cluster_types.go`:
  the cluster condition constants and the cluster configuration structs.

`New` calls into packages whose code is not among these files
(`setup`, `normanapi`, `rbac`, `store`, and the sibling `URLParser`); they are
the fields of `Env`, so every theorem about `New` holds for all of them.
-/

namespace Rancher

/-! ## cluster_types.go: condition constants -/

/-- The type `condition.Cond` of norman: a string. -/
abbrev Cond := String

def ClusterConditionReady : Cond := "Ready"
def ClusterConditionMachinesCreated : Cond := "MachinesCreated"
def ClusterConditionProvisioned : Cond := "Provisioned"
def ClusterConditionUpdated : Cond := "Updated"
def ClusterConditionRemoved : Cond := "Removed"
def ClusterConditionRegistered : Cond := "Registered"
def ClusterConditionNoDiskPressure : Cond := "NoDiskPressure"
def ClusterConditionNoMemoryPressure : Cond := "NoMemoryPressure"
def ClusterConditionconditionDefautlProjectCreated : Cond := "DefaultProjectCreated"
def ClusterConditionDefaultNamespaceAssigned : Cond := "DefaultNamespaceAssigned"

/-- The constants of the `const ( ... )` block, in declaration order. -/
def clusterConditions : List Cond :=
  [ ClusterConditionReady
  , ClusterConditionMachinesCreated
  , ClusterConditionProvisioned
  , ClusterConditionUpdated
  , ClusterConditionRemoved
  , ClusterConditionRegistered
  , ClusterConditionNoDiskPressure
  , ClusterConditionNoMemoryPressure
  , ClusterConditionconditionDefautlProjectCreated
  , ClusterConditionDefaultNamespaceAssigned ]

/-! ## cluster_types.go: `AzureKubernetesServiceConfig` -/

/-- Bounds of Go's `int64`. -/
def minInt64 : Int := -(2 ^ 63)

def maxInt64 : Int := 2 ^ 63 - 1

def isInt64 (n : Int) : Bool := decide (minInt64 ≤ n) && decide (n ≤ maxInt64)

/-- The struct `AzureKubernetesServiceConfig`, field by field; `int64` fields are
integers (their range is `isInt64`), the map is an association list. -/
structure AzureKubernetesServiceConfig where
  SubscriptionID : String
  ResourceGroup : String
  Location : String
  Tag : List (String × String)
  Count : Int
  AgentDNSPrefix : String
  AgentPoolName : String
  OsDiskSizeGB : Int
  AgentVMSize : String
  KubernetesVersion : String
  SSHPublicKeyContents : String
  MasterDNSPrefix : String
  AdminUsername : String
  BaseURL : String
  ClientID : String
  ClientSecret : String
  TenantID : String
  deriving DecidableEq, Repr

namespace AzureKubernetesServiceConfig

/-- The values the Go declaration admits: every string, and every `int64` in the two
integer fields. The declaration carries no further constraint. -/
def admitted (c : AzureKubernetesServiceConfig) : Bool :=
  isInt64 c.Count && isInt64 c.OsDiskSizeGB

/-- Go's zero value of the struct: what `AzureKubernetesServiceConfig{}` is, and what a
decoded document that sets no field yields. -/
def zero : AzureKubernetesServiceConfig :=
  { SubscriptionID := "", ResourceGroup := "", Location := "", Tag := [], Count := 0
  , AgentDNSPrefix := "", AgentPoolName := "", OsDiskSizeGB := 0, AgentVMSize := ""
  , KubernetesVersion := "", SSHPublicKeyContents := "", MasterDNSPrefix := ""
  , AdminUsername := "", BaseURL := "", ClientID := "", ClientSecret := "", TenantID := "" }

end AzureKubernetesServiceConfig

/-- One field of a struct declaration: its Go name and the values of its `json` and
`norman` tag keys (the empty string when the key is absent). -/
structure FieldDecl where
  goName : String
  json : String
  norman : String
  deriving DecidableEq, Repr

/-- The field declarations of `AzureKubernetesServiceConfig`, tags as written. -/
def azureFields : List FieldDecl :=
  [ ⟨"SubscriptionID", "subscriptionId,omitempty", "required"⟩
  , ⟨"ResourceGroup", "resourceGroup,omitempty", "required"⟩
  , ⟨"Location", "location,omitempty", ""⟩
  , ⟨"Tag", "tags,omitempty", ""⟩
  , ⟨"Count", "count,omitempty", ""⟩
  , ⟨"AgentDNSPrefix", "agentDnsPrefix,,omitempty", ""⟩
  , ⟨"AgentPoolName", "agentPoolName,,omitempty", ""⟩
  , ⟨"OsDiskSizeGB", "osDiskSizeGb,omitempty", ""⟩
  , ⟨"AgentVMSize", "agentVmSize,omitempty", ""⟩
  , ⟨"KubernetesVersion", "kubernetesVersion,omitempty", ""⟩
  , ⟨"SSHPublicKeyContents", "sshPublicKeyContents,omitempty", "required"⟩
  , ⟨"MasterDNSPrefix", "masterDnsPrefix,omitempty", ""⟩
  , ⟨"AdminUsername", "adminUsername,omitempty", ""⟩
  , ⟨"BaseURL", "baseUrl,omitempty", ""⟩
  , ⟨"ClientID", "clientId,omitempty", "required"⟩
  , ⟨"ClientSecret", "clientSecret,omitempty", "required"⟩
  , ⟨"TenantID", "tenantId,omitempty", "required"⟩ ]

/-- The declaration of the field with the given Go name. -/
def azureField (goName : String) : Option FieldDecl :=
  azureFields.find? (fun f => f.goName == goName)

/-! ### Go's `encoding/json` tag rule

The rule is the standard library's, not this repository's: the name is the text before
the first comma, the options are the comma-separated rest. -/

/-- Split at every occurrence of a separator; the result is never empty. -/
def splitChar (sep : Char) : List Char → List (List Char)
  | [] => [[]]
  | c :: cs =>
    if c = sep then [] :: splitChar sep cs
    else
      match splitChar sep cs with
      | [] => [[c]]
      | seg :: segs => (c :: seg) :: segs

/-- The name part of a `json` tag: the text before the first comma. -/
def tagName (tag : String) : String :=
  String.mk ((splitChar ',' tag.data).headD [])

/-- The options of a `json` tag: the comma-separated rest. -/
def tagOptions (tag : String) : List String :=
  ((splitChar ',' tag.data).tail).map String.mk

/-- The characters `encoding/json` accepts in a tag name besides letters and digits. -/
def tagPunct : List Char := "!#$%&()*+-./:;<=>?@[]^_{|}~ ".data

/-- The check `isValidTag` of `encoding/json` (on ASCII names): non-empty, and every
character a letter, a digit or one of `tagPunct`. -/
def isValidTag (s : String) : Bool :=
  !s.data.isEmpty && s.data.all (fun c => c.isAlphanum || tagPunct.contains c)

/-- The key a field is serialised under: the tag's name when it is valid, the Go field
name otherwise. -/
def jsonKey (f : FieldDecl) : String :=
  if isValidTag (tagName f.json) then tagName f.json else f.goName

/-- Whether the `omitempty` option is in effect for the field. -/
def omitEmpty (f : FieldDecl) : Bool :=
  (tagOptions f.json).contains "omitempty"

/-! ## server.go: `New` -/

section Server

variable {Ctx Schemas RBAC URL ParsedURL Err AC Store Reg : Type}

/-- The fields of `config.UserContext` that `New` reads. -/
structure UserContext (Schemas RBAC : Type) where
  ClusterName : String
  Schemas : Schemas
  RBAC : RBAC

/-- The API server of norman (`normanapi.Server`): the three hooks `New` assigns and the
schema collection `AddSchemas` fills. A Go result pair `(value, error)` is a pair whose
second component is `none` for the nil error. -/
structure Server (Schemas URL ParsedURL Err AC Store Reg : Type) where
  AccessControl : AC
  URLParser : Schemas → URL → ParsedURL × Option Err
  StoreWrapper : Store → Store
  schemas : Reg

/-- The functions `New` calls whose code lies outside `server.go`.

* `setupSchemas` is `setup.Schemas(ctx, cluster, cluster.Schemas)`: it receives the schema
  collection by pointer and returns its error together with the collection as it leaves it;
* `NewAPIServer` is `normanapi.NewAPIServer()`, the freshly built server with its defaults;
* `NewAccessControl` is `rbac.NewAccessControl`;
* `URLParser` is the package's own `URLParser(clusterName, schemas, url)`;
* `ProjectSetter` is `store.ProjectSetter`;
* `AddSchemas` is the method `(*Server).AddSchemas`: it reads the server it is called on
  and returns its error together with the server's schema collection; the three hooks are
  the caller's to set and it leaves them as they are. -/
structure Env (Ctx Schemas RBAC URL ParsedURL Err AC Store Reg : Type) where
  setupSchemas : Ctx → UserContext Schemas RBAC → Schemas → Option Err × Schemas
  NewAPIServer : Server Schemas URL ParsedURL Err AC Store Reg
  NewAccessControl : RBAC → AC
  URLParser : String → Schemas → URL → ParsedURL × Option Err
  ProjectSetter : (Store → Store) → (Store → Store)
  AddSchemas : Server Schemas URL ParsedURL Err AC Store Reg → Schemas → Option Err × Reg

/-- The observable steps of one run of `New`, in the order they happen. -/
inductive Step where
  | setupSchemas
  | newAPIServer
  | assignAccessControl
  | assignURLParser
  | assignStoreWrapper
  | addSchemas
  deriving DecidableEq, Repr

/-- The local variable `server` of `New` while it is being configured, with the steps
taken so far. -/
structure Building (Schemas URL ParsedURL Err AC Store Reg : Type) where
  server : Server Schemas URL ParsedURL Err AC Store Reg
  steps : List Step

/-- What one call of `New` yields: the two Go results `(http.Handler, error)`, the steps
the call went through, and the server `AddSchemas` was called on (when it was called). -/
structure Run (Schemas URL ParsedURL Err AC Store Reg : Type) where
  handler : Option (Server Schemas URL ParsedURL Err AC Store Reg)
  err : Option Err
  steps : List Step
  registeredOn : Option (Server Schemas URL ParsedURL Err AC Store Reg)

namespace Building

/-- The statement `server := normanapi.NewAPIServer()`, after the steps taken before it. -/
def create (env : Env Ctx Schemas RBAC URL ParsedURL Err AC Store Reg) (before : List Step) :
    Building Schemas URL ParsedURL Err AC Store Reg :=
  { server := env.NewAPIServer, steps := before ++ [Step.newAPIServer] }

/-- The statement `server.AccessControl = ac`. -/
def setAccessControl (b : Building Schemas URL ParsedURL Err AC Store Reg) (ac : AC) :
    Building Schemas URL ParsedURL Err AC Store Reg :=
  { server := { b.server with AccessControl := ac }
  , steps := b.steps ++ [Step.assignAccessControl] }

/-- The statement `server.URLParser = p`. -/
def setURLParser (b : Building Schemas URL ParsedURL Err AC Store Reg)
    (p : Schemas → URL → ParsedURL × Option Err) :
    Building Schemas URL ParsedURL Err AC Store Reg :=
  { server := { b.server with URLParser := p }
  , steps := b.steps ++ [Step.assignURLParser] }

/-- The statement `server.StoreWrapper = w`. -/
def setStoreWrapper (b : Building Schemas URL ParsedURL Err AC Store Reg) (w : Store → Store) :
    Building Schemas URL ParsedURL Err AC Store Reg :=
  { server := { b.server with StoreWrapper := w }
  , steps := b.steps ++ [Step.assignStoreWrapper] }

/-- The call `server.AddSchemas(schemas)` on the server as it is at that point, and the
two returns that follow it: `nil, err` when it fails, `server, nil` otherwise. -/
def addSchemas (env : Env Ctx Schemas RBAC URL ParsedURL Err AC Store Reg)
    (b : Building Schemas URL ParsedURL Err AC Store Reg) (schemas : Schemas) :
    Run Schemas URL ParsedURL Err AC Store Reg :=
  match env.AddSchemas b.server schemas with
  | (some err, _) =>
    { handler := none, err := some err, steps := b.steps ++ [Step.addSchemas]
    , registeredOn := some b.server }
  | (none, reg) =>
    { handler := some { b.server with schemas := reg }, err := none
    , steps := b.steps ++ [Step.addSchemas], registeredOn := some b.server }

end Building

/-- The function `New(ctx, cluster)` of `server.go`, statement by statement. The closure
assigned to `server.URLParser` reads `cluster.ClusterName`; nothing assigns that field, so
the closure is modelled with the value it captures. -/
def New (env : Env Ctx Schemas RBAC URL ParsedURL Err AC Store Reg) (ctx : Ctx)
    (cluster : UserContext Schemas RBAC) : Run Schemas URL ParsedURL Err AC Store Reg :=
  match env.setupSchemas ctx cluster cluster.Schemas with
  | (some err, _) =>
    { handler := none, err := some err, steps := [Step.setupSchemas], registeredOn := none }
  | (none, schemas) =>
    let cluster : UserContext Schemas RBAC := { cluster with Schemas := schemas }
    let b : Building Schemas URL ParsedURL Err AC Store Reg :=
      Building.create env [Step.setupSchemas]
    let b := b.setAccessControl (env.NewAccessControl cluster.RBAC)
    let b := b.setURLParser (fun schemas url => env.URLParser cluster.ClusterName schemas url)
    let b := b.setStoreWrapper (env.ProjectSetter b.server.StoreWrapper)
    b.addSchemas env cluster.Schemas

/-- The server `New` has configured when it calls `AddSchemas`: the fresh server with the
three hooks assigned. -/
def configured (env : Env Ctx Schemas RBAC URL ParsedURL Err AC Store Reg)
    (cluster : UserContext Schemas RBAC) : Server Schemas URL ParsedURL Err AC Store Reg :=
  { AccessControl := env.NewAccessControl cluster.RBAC
  , URLParser := fun schemas url => env.URLParser cluster.ClusterName schemas url
  , StoreWrapper := env.ProjectSetter env.NewAPIServer.StoreWrapper
  , schemas := env.NewAPIServer.schemas }

/-- The six steps of a run that reaches `AddSchemas`. -/
def fullRun : List Step :=
  [ Step.setupSchemas, Step.newAPIServer, Step.assignAccessControl, Step.assignURLParser
  , Step.assignStoreWrapper, Step.addSchemas ]

end Server

/-! ## The collaborators of `New`, modelled from the specification

`URLParser`, `rbac.NewAccessControl` and `store.ProjectSetter` belong to the repository
but not to the two files above. The definitions of this part follow the specification
(its sections 3, 4.1, 4.2, 4.3 and 7). -/

namespace Model

/-- Modelled from the spec: the error kinds of section 7, the three backing-store errors
included. -/
inductive ErrorKind where
  | UnknownResourceType
  | MissingScope
  | UnknownSubResource
  | Forbidden
  | ScopeConflict
  | NotFound
  | Conflict
  | Unavailable
  deriving DecidableEq, Repr

/-- Modelled from the spec: the verbs of section 3; an action verb carries its name. -/
inductive Verb where
  | list
  | get
  | create
  | update
  | delete
  | watch
  | action (name : String)
  deriving DecidableEq, Repr

/-- Modelled from the spec: the scope kinds of a schema (section 3). -/
inductive ScopeKind where
  | clusterScoped
  | projectScoped
  | namespaceScoped
  | none
  deriving DecidableEq, Repr

/-- Modelled from the spec: a schema (section 3): type name, supported verbs, parent type
and scope kind. -/
structure Schema where
  typeName : String
  verbs : List Verb
  parent : Option String
  scope : ScopeKind
  deriving DecidableEq, Repr

/-- Modelled from the spec: the schema registry of one cluster, a mapping from type name
to schema; the parser receives it as its schema set. -/
abbrev Schemas := List Schema

/-- Modelled from the spec: the registry's lookup by resource-type name. -/
def Schemas.lookup (schemas : Schemas) (typeName : String) : Option Schema :=
  schemas.find? (fun s => s.typeName == typeName)

/-- Modelled from the spec: the raw URL the dispatcher hands over: its path and its query
parameters in declaration order. -/
structure URL where
  path : String
  query : List (String × String)
  deriving DecidableEq, Repr

/-- Modelled from the spec: what a trailing segment after the resource name denotes. -/
inductive SubResource where
  | action (name : String)
  | child (typeName : String)
  deriving DecidableEq, Repr

/-- Modelled from the spec: the resource locator of section 3. -/
structure ResourceLocator where
  typeName : String
  scope : Option String
  name : Option String
  sub : Option SubResource
  query : List (String × List String)
  cluster : String
  deriving DecidableEq, Repr

/-- Modelled from the spec: the static parsing rules of section 4.1 that the
specification leaves to the deployment: the fixed path prefix that introduces a scope
segment, the query parameter that may carry the scope, and how a path segment names a
resource type. -/
structure ParseRules where
  scopePrefix : String
  scopeParam : String
  typeOf : String → String

/-- Modelled from the spec: the path split into its non-empty segments. -/
def segments (path : String) : List String :=
  ((splitChar '/' path.data).filter (fun seg => !seg.isEmpty)).map String.mk

/-- Modelled from the spec: append a value to the values of a key, keeping the order of
both. -/
def addValue (k v : String) : List (String × List String) → List (String × List String)
  | [] => [(k, [v])]
  | (k', vs) :: rest =>
    if k' = k then (k', vs ++ [v]) :: rest else (k', vs) :: addValue k v rest

/-- Modelled from the spec: the query parameters as a multi-value mapping; the values of
a key keep their declaration order and duplicates are aggregated, not removed. -/
def parseQuery (query : List (String × String)) : List (String × List String) :=
  query.foldl (fun m kv => addValue kv.1 kv.2 m) []

/-- Modelled from the spec: the path after the fixed scope prefix, with the scope segment
when the prefix is there. -/
def splitScope (rules : ParseRules) : List String → Option String × List String
  | [] => (none, [])
  | [seg] => (none, [seg])
  | seg :: id :: rest =>
    if seg = rules.scopePrefix then (some id, rest) else (none, seg :: id :: rest)

/-- Modelled from the spec: the segment that selects the resource type: the first one
after the fixed prefix. -/
def typeSegment (rules : ParseRules) (url : URL) : Option String :=
  (splitScope rules (segments url.path)).2.head?

/-- Modelled from the spec: the scope of a request: the path segment when present, the
query parameter otherwise (the path takes precedence). -/
def scopeOf (rules : ParseRules) (pathScope : Option String)
    (query : List (String × List String)) : Option String :=
  match pathScope with
  | some p => some p
  | none =>
    match query.find? (fun kv => kv.1 == rules.scopeParam) with
    | some (_, v :: _) => some v
    | _ => none

/-- Modelled from the spec: whether a schema's scope kind requires a project or namespace
component. -/
def ScopeKind.required : ScopeKind → Bool
  | ScopeKind.projectScoped => true
  | ScopeKind.namespaceScoped => true
  | _ => false

/-- Modelled from the spec: the trailing segment after the resource name: a named action
when the schema declares it, a child resource when a schema of the registry has this type
as parent, and `UnknownSubResource` otherwise. -/
def subResource (rules : ParseRules) (schemas : Schemas) (schema : Schema) :
    List String → Option SubResource × Option ErrorKind
  | [] => (none, none)
  | [seg] =>
    if schema.verbs.contains (Verb.action seg) then (some (SubResource.action seg), none)
    else
      match schemas.lookup (rules.typeOf seg) with
      | some child =>
        if child.parent = some schema.typeName then (some (SubResource.child child.typeName), none)
        else (none, some ErrorKind.UnknownSubResource)
      | none => (none, some ErrorKind.UnknownSubResource)
  | _ :: _ :: _ => (none, some ErrorKind.UnknownSubResource)

/-- Modelled from the spec: the URL parser of section 4.1, `Parse(clusterContext, rawURL)`,
in the argument order of the call in `New`; it is the function `URLParser` of the package,
whose code is not among the files. A failure carries no locator. -/
def URLParser (rules : ParseRules) (clusterName : String) (schemas : Schemas) (url : URL) :
    Option ResourceLocator × Option ErrorKind :=
  match splitScope rules (segments url.path) with
  | (_, []) => (none, some ErrorKind.UnknownResourceType)
  | (pathScope, seg :: rest) =>
    match schemas.lookup (rules.typeOf seg) with
    | none => (none, some ErrorKind.UnknownResourceType)
    | some schema =>
      let query := parseQuery url.query
      let scope := scopeOf rules pathScope query
      if schema.scope.required && scope.isNone then (none, some ErrorKind.MissingScope)
      else
        match subResource rules schemas schema rest.tail with
        | (_, some e) => (none, some e)
        | (sub, none) =>
          ( some { typeName := schema.typeName, scope := scope, name := rest.head?
                 , sub := sub, query := query, cluster := clusterName }
          , none )

/-! ### Access control (section 4.2) -/

/-- Modelled from the spec: the authenticated caller (section 3). -/
structure Principal where
  id : String
  groups : List String
  deriving DecidableEq, Repr

/-- Modelled from the spec: the boundary a grant or a binding is restricted to:
cluster-wide, or one project or namespace. -/
inductive Scope where
  | cluster
  | within (id : String)
  deriving DecidableEq, Repr

/-- Modelled from the spec: a resource-type pattern of a grant. -/
inductive TypePattern where
  | any
  | exact (typeName : String)
  deriving DecidableEq, Repr

/-- Modelled from the spec: an entry of a grant's verb set: a verb (an action verb being
an explicit action grant), or the wildcard action grant. -/
inductive VerbGrant where
  | verb (v : Verb)
  | anyAction
  deriving DecidableEq, Repr

/-- Modelled from the spec: a grant of a role: pattern, verb set, optional scope
restriction. -/
structure Grant where
  pattern : TypePattern
  verbs : List VerbGrant
  scope : Option Scope
  deriving DecidableEq, Repr

/-- Modelled from the spec: a role, a named set of grants. -/
structure Role where
  name : String
  grants : List Grant
  deriving DecidableEq, Repr

/-- Modelled from the spec: whom a binding names: a principal or a group. -/
inductive Subject where
  | user (id : String)
  | group (name : String)
  deriving DecidableEq, Repr

/-- Modelled from the spec: a role binding: subject, role, scope. -/
structure RoleBinding where
  subject : Subject
  role : Role
  scope : Scope
  deriving DecidableEq, Repr

/-- Modelled from the spec: the result of authorization (section 3). -/
structure AccessDecision where
  allowed : Bool
  scopeFilter : Option String
  deriving DecidableEq, Repr

/-- Modelled from the spec: what a decision reports: a denial is always `Forbidden`. -/
def AccessDecision.error (d : AccessDecision) : Option ErrorKind :=
  if d.allowed then none else some ErrorKind.Forbidden

/-- Modelled from the spec: the role-binding store of section 6,
`ListBindings(principal)`. -/
abbrev BindingStore := Principal → List RoleBinding

/-- Modelled from the spec: a binding applies to the principal directly or through one of
its groups. -/
def Subject.covers (s : Subject) (p : Principal) : Bool :=
  match s with
  | Subject.user id => id == p.id
  | Subject.group g => p.groups.contains g

/-- Modelled from the spec: a scope admits a request when it is cluster-wide or is the
locator's project or namespace; a `list` that names no project is admitted by a project
scope as well (and is then restricted to that project by the scope filter). -/
def Scope.admits (s : Scope) (verb : Verb) (locator : ResourceLocator) : Bool :=
  match s with
  | Scope.cluster => true
  | Scope.within id => locator.scope == some id || (verb == Verb.list && locator.scope.isNone)

/-- Modelled from the spec: a resource-type pattern matches the locator's type. -/
def TypePattern.matches (p : TypePattern) (typeName : String) : Bool :=
  match p with
  | TypePattern.any => true
  | TypePattern.exact t => t == typeName

/-- Modelled from the spec: a verb set contains the requested verb; an action verb is
matched by an explicit action grant or by the wildcard action grant only. -/
def VerbGrant.permits (g : VerbGrant) (verb : Verb) : Bool :=
  match g, verb with
  | VerbGrant.verb v, w => v == w
  | VerbGrant.anyAction, Verb.action _ => true
  | VerbGrant.anyAction, _ => false

/-- Modelled from the spec: a grant matches: its pattern matches the type, its verb set
contains the verb, and its scope restriction, if any, admits the request. -/
def Grant.permits (g : Grant) (verb : Verb) (locator : ResourceLocator) : Bool :=
  g.pattern.matches locator.typeName && g.verbs.any (fun vg => vg.permits verb) &&
    (match g.scope with
     | none => true
     | some s => s.admits verb locator)

/-- Modelled from the spec: a binding grants the verb on the locator's type and scope: it
applies to the principal, its scope admits the request, and a grant of its role matches. -/
def RoleBinding.qualifies (b : RoleBinding) (p : Principal) (verb : Verb)
    (locator : ResourceLocator) : Bool :=
  b.subject.covers p && b.scope.admits verb locator &&
    b.role.grants.any (fun g => g.permits verb locator)

/-- Modelled from the spec: the project a binding limits the principal to, when it does. -/
def RoleBinding.limit (b : RoleBinding) : Option String :=
  match b.scope with
  | Scope.cluster => none
  | Scope.within id => some id

/-- Modelled from the spec: the scope filter of a decision: when every permission found
is limited to a project, that project. A `list` carries it (section 4.2), and so does a
`create`, whose payload the project-assignment decorator checks against it (sections 4.3
and 8); a `get` is allowed with no extra filter (section 8). -/
def scopeFilter (granting : List RoleBinding) (verb : Verb) : Option String :=
  if (verb == Verb.list || verb == Verb.create) && granting.all (fun b => b.limit.isSome) then
    granting.head?.bind RoleBinding.limit
  else none

/-- Modelled from the spec: `Authorize(principal, verb, locator)` of section 4.2 over the
bindings the store lists: a fold over all of them, allow if any grants. -/
def Authorize (bindings : List RoleBinding) (p : Principal) (verb : Verb)
    (locator : ResourceLocator) : AccessDecision :=
  let allowed := bindings.foldl (fun acc b => acc || b.qualifies p verb locator) false
  { allowed := allowed
  , scopeFilter :=
      if allowed then scopeFilter (bindings.filter (fun b => b.qualifies p verb locator)) verb
      else none }

/-- Modelled from the spec: the contract `Authorize(principal, verb, locator)` as the
type of the server's access control. -/
abbrev AccessControl := Principal → Verb → ResourceLocator → AccessDecision

/-- Modelled from the spec: the access control `rbac.NewAccessControl` builds over the
cluster's role-binding store; it reads the store afresh on every request. -/
def NewAccessControl (store : BindingStore) : AccessControl :=
  fun p verb locator => Authorize (store p) p verb locator

/-! ### Store pipeline (section 4.3) -/

/-- Modelled from the spec: a domain object: the project field the core reads, and the
rest, which it does not interpret. -/
structure Payload where
  project : Option String
  fields : List (String × String)
  deriving DecidableEq, Repr

/-- Modelled from the spec: the request passed down the wrapper chain (section 3). -/
structure StoreOperation where
  verb : Verb
  locator : ResourceLocator
  payload : Option Payload
  scopeFilter : Option String
  deriving DecidableEq, Repr

/-- Modelled from the spec: the operation the dispatcher passes down the chain once the
request is allowed: verb, locator, payload, and the scope filter from the decision. -/
def storeOperation (verb : Verb) (locator : ResourceLocator) (payload : Option Payload)
    (decision : AccessDecision) : StoreOperation :=
  { verb := verb, locator := locator, payload := payload, scopeFilter := decision.scopeFilter }

/-- Modelled from the spec: what a store operation returns: objects, or an error. -/
inductive Outcome where
  | objects (items : List Payload)
  | failure (kind : ErrorKind)
  deriving DecidableEq, Repr

/-- Modelled from the spec: the four operations every store and every decorator
implements; `σ` is the state of the backing store, so a call that reaches it shows. -/
structure Store (σ : Type) where
  list : StoreOperation → σ → Outcome × σ
  get : StoreOperation → σ → Outcome × σ
  createUpdate : StoreOperation → σ → Outcome × σ
  delete : StoreOperation → σ → Outcome × σ

/-- Modelled from the spec: the project-assignment step on a `create`: the payload to
forward, or `ScopeConflict`. Operations other than `create`, and a `create` without a
scope filter or payload, pass unchanged. -/
def assignProject (op : StoreOperation) : Except ErrorKind StoreOperation :=
  match op.verb, op.scopeFilter, op.payload with
  | Verb.create, some authorized, some payload =>
    match payload.project with
    | none => Except.ok { op with payload := some { payload with project := some authorized } }
    | some declared =>
      if declared = authorized then Except.ok op else Except.error ErrorKind.ScopeConflict
  | _, _, _ => Except.ok op

/-- Modelled from the spec: the project-assignment decorator around an inner store: it
rewrites or rejects a `create` and forwards everything else unchanged. -/
def projectSetter {σ : Type} (inner : Store σ) : Store σ :=
  { list := inner.list
  , get := inner.get
  , createUpdate := fun op st =>
      match assignProject op with
      | Except.ok op' => inner.createUpdate op' st
      | Except.error kind => (Outcome.failure kind, st)
  , delete := inner.delete }

/-- Modelled from the spec: `store.ProjectSetter`: decorator i wraps decorator i+1, so the
project-assignment decorator goes around the store that the wrapper it is given builds. -/
def ProjectSetter {σ : Type} (next : Store σ → Store σ) : Store σ → Store σ :=
  fun backing => projectSetter (next backing)

end Model

/-! ## A concrete cluster

The schema, URL and binding of the specification's scenario (section 8), used to
evaluate the definitions above. -/

namespace Demo

open Model

/-- A path segment names a type by its plural: `pods` selects `pod`. -/
def typeOf (seg : String) : String :=
  if seg.data.getLast? = some 's' then String.mk seg.data.dropLast else seg

def rules : ParseRules :=
  { scopePrefix := "projects", scopeParam := "projectId", typeOf := typeOf }

def podSchema : Schema :=
  { typeName := "pod", verbs := [Verb.list, Verb.get, Verb.create, Verb.delete]
  , parent := none, scope := ScopeKind.projectScoped }

def schemas : Schemas := [podSchema]

def viewer : Role :=
  { name := "viewer"
  , grants := [{ pattern := TypePattern.exact "pod"
               , verbs := [VerbGrant.verb Verb.get, VerbGrant.verb Verb.list]
               , scope := none }] }

def alice : Principal := { id := "alice", groups := ["dev"] }

def viewerBinding : RoleBinding :=
  { subject := Subject.user "alice", role := viewer, scope := Scope.within "p-1" }

/-- A role-binding store without bindings. -/
def noBindings : BindingStore := fun _ => []

/-- A role-binding store with the scenario's one binding. -/
def oneBinding : BindingStore := fun _ => [viewerBinding]

/-- A backing store that counts the calls reaching it and echoes the payload. -/
def countingStore : Store Nat :=
  { list := fun _ n => (Outcome.objects [], n + 1)
  , get := fun _ n => (Outcome.objects [], n + 1)
  , createUpdate := fun op n => (Outcome.objects op.payload.toList, n + 1)
  , delete := fun _ n => (Outcome.objects [], n + 1) }

/-- A freshly built server: it denies, parses nothing and wraps nothing. -/
def freshServer :
    Server Schemas URL (Option ResourceLocator) ErrorKind AccessControl (Store Nat) Schemas :=
  { AccessControl := fun _ _ _ => { allowed := false, scopeFilter := none }
  , URLParser := fun _ _ => (none, some ErrorKind.UnknownResourceType)
  , StoreWrapper := id
  , schemas := [] }

/-- An environment in which both fallible steps succeed. -/
def env :
    Env Unit Schemas BindingStore URL (Option ResourceLocator) ErrorKind AccessControl
      (Store Nat) Schemas :=
  { setupSchemas := fun _ _ s => (none, s)
  , NewAPIServer := freshServer
  , NewAccessControl := NewAccessControl
  , URLParser := URLParser rules
  , ProjectSetter := ProjectSetter
  , AddSchemas := fun srv s => (none, srv.schemas ++ s) }

/-- An environment in which `setup.Schemas` fails. -/
def envSetupFails :
    Env Unit Schemas BindingStore URL (Option ResourceLocator) ErrorKind AccessControl
      (Store Nat) Schemas :=
  { env with setupSchemas := fun _ _ s => (some ErrorKind.Unavailable, s) }

/-- An environment in which `AddSchemas` fails. -/
def envAddFails :
    Env Unit Schemas BindingStore URL (Option ResourceLocator) ErrorKind AccessControl
      (Store Nat) Schemas :=
  { env with AddSchemas := fun srv _ => (some ErrorKind.Conflict, srv.schemas) }

def cluster : UserContext Schemas BindingStore :=
  { ClusterName := "c-1", Schemas := schemas, RBAC := noBindings }

/-- The server `New` returns for the concrete cluster. -/
def server :
    Server Schemas URL (Option ResourceLocator) ErrorKind AccessControl (Store Nat) Schemas :=
  { AccessControl := NewAccessControl noBindings
  , URLParser := fun s u => URLParser rules "c-1" s u
  , StoreWrapper := ProjectSetter id
  , schemas := schemas }

/-- The concrete cluster with the scenario's binding in its store. -/
def clusterBound : UserContext Schemas BindingStore :=
  { ClusterName := "c-1", Schemas := schemas, RBAC := oneBinding }

/-- The server `New` returns for `clusterBound`. -/
def serverBound :
    Server Schemas URL (Option ResourceLocator) ErrorKind AccessControl (Store Nat) Schemas :=
  { server with AccessControl := NewAccessControl oneBinding }

/-- An environment with another access control, another store decorator and another
fresh server, and the same `URLParser`. -/
def envOther :
    Env Unit Schemas BindingStore URL (Option ResourceLocator) ErrorKind AccessControl
      (Store Nat) Schemas :=
  { env with
    NewAPIServer := { freshServer with StoreWrapper := fun _ => countingStore }
    NewAccessControl := fun _ _ _ _ => { allowed := true, scopeFilter := none }
    ProjectSetter := fun w => w }

/-- The server `New` returns in `envOther` for `clusterBound`. -/
def serverOther :
    Server Schemas URL (Option ResourceLocator) ErrorKind AccessControl (Store Nat) Schemas :=
  { AccessControl := fun _ _ _ => { allowed := true, scopeFilter := none }
  , URLParser := fun s u => URLParser rules "c-1" s u
  , StoreWrapper := fun _ => countingStore
  , schemas := schemas }

def podURL : URL := { path := "/projects/p-1/pods/web-1", query := [] }

def widgetURL : URL := { path := "/projects/p-1/widgets/w-1", query := [] }

def podLocator : ResourceLocator :=
  { typeName := "pod", scope := some "p-1", name := some "web-1", sub := none
  , query := [], cluster := "c-1" }

/-- A role that may create pods. -/
def editor : Role :=
  { name := "editor"
  , grants := [{ pattern := TypePattern.exact "pod"
               , verbs := [VerbGrant.verb Verb.create]
               , scope := none }] }

/-- A project-scoped grant: `alice` is `editor` within project `p-1`. -/
def editorBinding : RoleBinding :=
  { subject := Subject.user "alice", role := editor, scope := Scope.within "p-1" }

/-- The concrete cluster with the viewer and the editor binding in its store. -/
def clusterEditor : UserContext Schemas BindingStore :=
  { ClusterName := "c-1", Schemas := schemas, RBAC := fun _ => [viewerBinding, editorBinding] }

/-- The server `New` returns for `clusterEditor`. -/
def serverEditor :
    Server Schemas URL (Option ResourceLocator) ErrorKind AccessControl (Store Nat) Schemas :=
  { server with AccessControl := NewAccessControl (fun _ => [viewerBinding, editorBinding]) }

/-- The collection URL a pod is created at. -/
def podsURL : URL := { path := "/projects/p-1/pods", query := [] }

/-- The locator of `podsURL`. -/
def podsLocator : ResourceLocator := { podLocator with name := none }

/-- A pod payload with the given project field. -/
def podPayload (project : Option String) : Payload :=
  { project := project, fields := [("image", "nginx")] }

/-- An environment whose stores are the lists of the layers around them: the fresh
server's wrapper adds `w0`, the project setter adds `ProjectSetter` around what its
argument builds, and `AddSchemas` registers what the server's wrapper makes of `store`. -/
def envProbe :
    Env Unit Schemas BindingStore URL (Option ResourceLocator) ErrorKind AccessControl
      (List String) (List String) :=
  { setupSchemas := fun _ _ s => (none, s)
  , NewAPIServer :=
      { AccessControl := fun _ _ _ => { allowed := false, scopeFilter := none }
      , URLParser := fun _ _ => (none, some ErrorKind.UnknownResourceType)
      , StoreWrapper := fun s => "w0" :: s
      , schemas := [] }
  , NewAccessControl := NewAccessControl
  , URLParser := URLParser rules
  , ProjectSetter := fun next s => "ProjectSetter" :: next s
  , AddSchemas := fun srv _ => (none, srv.StoreWrapper ["store"]) }

/-- The server `New` returns in `envProbe` for the concrete cluster. -/
def serverProbe :
    Server Schemas URL (Option ResourceLocator) ErrorKind AccessControl (List String)
      (List String) :=
  { AccessControl := NewAccessControl noBindings
  , URLParser := fun s u => URLParser rules "c-1" s u
  , StoreWrapper := fun s => "ProjectSetter" :: "w0" :: s
  , schemas := ["ProjectSetter", "w0", "store"] }

end Demo

/-! ## Theorems: cluster_types.go -/

/-- C9: the ten cluster condition constants are the ten strings of the declaration, they
are pairwise distinct, and none of them is empty. -/
theorem clusterConditions_distinct_nonempty :
    clusterConditions =
        [ "Ready", "MachinesCreated", "Provisioned", "Updated", "Removed", "Registered"
        , "NoDiskPressure", "NoMemoryPressure", "DefaultProjectCreated"
        , "DefaultNamespaceAssigned" ] ∧
      clusterConditions.length = 10 ∧
      clusterConditions.Pairwise (fun a b => a ≠ b) ∧
      clusterConditions.all (fun c => c != "") = true := by
  decide

/-- C10: the two fields whose tag has a doubled comma serialise under the keys
`agentDnsPrefix` and `agentPoolName` with `omitempty` in effect: the doubled comma only
adds an empty option, and the key and the option are those of the tag written with a
single comma; `omitempty` is in effect for every field of the struct. -/
theorem doubled_comma_tags_keep_key_and_omitempty :
    (azureField "AgentDNSPrefix").map FieldDecl.json = some "agentDnsPrefix,,omitempty" ∧
      (azureField "AgentPoolName").map FieldDecl.json = some "agentPoolName,,omitempty" ∧
      (azureField "AgentDNSPrefix").map jsonKey = some "agentDnsPrefix" ∧
      (azureField "AgentPoolName").map jsonKey = some "agentPoolName" ∧
      (azureField "AgentDNSPrefix").map omitEmpty = some true ∧
      (azureField "AgentPoolName").map omitEmpty = some true ∧
      tagOptions "agentDnsPrefix,,omitempty" = ["", "omitempty"] ∧
      tagOptions "agentPoolName,,omitempty" = ["", "omitempty"] ∧
      jsonKey ⟨"AgentDNSPrefix", "agentDnsPrefix,omitempty", ""⟩ = "agentDnsPrefix" ∧
      omitEmpty ⟨"AgentDNSPrefix", "agentDnsPrefix,omitempty", ""⟩ = true ∧
      jsonKey ⟨"AgentPoolName", "agentPoolName,omitempty", ""⟩ = "agentPoolName" ∧
      omitEmpty ⟨"AgentPoolName", "agentPoolName,omitempty", ""⟩ = true ∧
      azureFields.all omitEmpty = true := by
  decide

/-- C7 (the declaration against its comment): the zero value of the struct is admitted by
the declaration and has `Count = 0`, outside the range 1 to 100 and not the documented
default 1; a count of 101 is admitted as well; the field carries no `norman` tag that
would set a default or a range. -/
theorem AzureKubernetesServiceConfig_Count_unconstrained :
    AzureKubernetesServiceConfig.zero.admitted = true ∧
      AzureKubernetesServiceConfig.zero.Count = 0 ∧
      ¬ (1 ≤ AzureKubernetesServiceConfig.zero.Count ∧
          AzureKubernetesServiceConfig.zero.Count ≤ 100) ∧
      AzureKubernetesServiceConfig.zero.Count ≠ 1 ∧
      ({ AzureKubernetesServiceConfig.zero with Count := 101 }).admitted = true ∧
      (azureField "Count").map FieldDecl.norman = some "" := by
  decide

/-! ## Theorems: server.go -/

section ServerTheorems

variable {Ctx Schemas RBAC URL ParsedURL Err AC Store Reg : Type}

/-- A run in which `setup.Schemas` fails. -/
theorem New_of_setup_error (env : Env Ctx Schemas RBAC URL ParsedURL Err AC Store Reg)
    (ctx : Ctx) (cluster : UserContext Schemas RBAC) (e : Err)
    (h : (env.setupSchemas ctx cluster cluster.Schemas).1 = some e) :
    New env ctx cluster =
      { handler := none, err := some e, steps := [Step.setupSchemas], registeredOn := none } := by
  unfold New
  rcases hs : env.setupSchemas ctx cluster cluster.Schemas with ⟨r, sch⟩
  rw [hs] at h
  simp only at h
  subst h
  rfl

/-- A run in which `setup.Schemas` succeeds and `AddSchemas` fails. -/
theorem New_of_add_error (env : Env Ctx Schemas RBAC URL ParsedURL Err AC Store Reg)
    (ctx : Ctx) (cluster : UserContext Schemas RBAC) (e : Err)
    (h : (env.setupSchemas ctx cluster cluster.Schemas).1 = none)
    (ha : (env.AddSchemas (configured env cluster)
            (env.setupSchemas ctx cluster cluster.Schemas).2).1 = some e) :
    New env ctx cluster =
      { handler := none, err := some e, steps := fullRun
      , registeredOn := some (configured env cluster) } := by
  unfold New
  rcases hs : env.setupSchemas ctx cluster cluster.Schemas with ⟨r, sch⟩
  rw [hs] at h ha
  simp only at h ha
  subst h
  simp only [Building.create, Building.setAccessControl, Building.setURLParser,
    Building.setStoreWrapper, Building.addSchemas]
  rcases hadd : env.AddSchemas (configured env cluster) sch with ⟨r, reg⟩
  rw [hadd] at ha
  simp only at ha
  subst ha
  simp only [configured] at hadd
  simp only [hadd]
  rfl

/-- A run in which both steps succeed. -/
theorem New_of_success (env : Env Ctx Schemas RBAC URL ParsedURL Err AC Store Reg)
    (ctx : Ctx) (cluster : UserContext Schemas RBAC)
    (h : (env.setupSchemas ctx cluster cluster.Schemas).1 = none)
    (ha : (env.AddSchemas (configured env cluster)
            (env.setupSchemas ctx cluster cluster.Schemas).2).1 = none) :
    New env ctx cluster =
      { handler := some { configured env cluster with
          schemas := (env.AddSchemas (configured env cluster)
            (env.setupSchemas ctx cluster cluster.Schemas).2).2 }
      , err := none, steps := fullRun, registeredOn := some (configured env cluster) } := by
  unfold New
  rcases hs : env.setupSchemas ctx cluster cluster.Schemas with ⟨r, sch⟩
  rw [hs] at h ha
  simp only at h ha
  subst h
  simp only [Building.create, Building.setAccessControl, Building.setURLParser,
    Building.setStoreWrapper, Building.addSchemas]
  rcases hadd : env.AddSchemas (configured env cluster) sch with ⟨r, reg⟩
  rw [hadd] at ha
  simp only at ha
  subst ha
  simp only [configured] at hadd
  simp only [hadd]
  rfl

/-- A run that returns a handler is a run in which both steps succeeded. -/
theorem New_handler_some (env : Env Ctx Schemas RBAC URL ParsedURL Err AC Store Reg)
    (ctx : Ctx) (cluster : UserContext Schemas RBAC)
    (srv : Server Schemas URL ParsedURL Err AC Store Reg)
    (h : (New env ctx cluster).handler = some srv) :
    (env.setupSchemas ctx cluster cluster.Schemas).1 = none ∧
      (env.AddSchemas (configured env cluster)
        (env.setupSchemas ctx cluster cluster.Schemas).2).1 = none ∧
      srv = { configured env cluster with
          schemas := (env.AddSchemas (configured env cluster)
            (env.setupSchemas ctx cluster cluster.Schemas).2).2 } := by
  cases hs : (env.setupSchemas ctx cluster cluster.Schemas).1 with
  | some e =>
    rw [New_of_setup_error env ctx cluster e hs] at h
    simp at h
  | none =>
    cases ha : (env.AddSchemas (configured env cluster)
        (env.setupSchemas ctx cluster cluster.Schemas).2).1 with
    | some e =>
      rw [New_of_add_error env ctx cluster e hs ha] at h
      simp at h
    | none =>
      rw [New_of_success env ctx cluster hs ha] at h
      simp only [Option.some.injEq] at h
      exact ⟨rfl, rfl, h.symm⟩

/-- C1: the URL parser of the server `New` returns gives, for every schema set and URL,
the pair (locator, error) that `URLParser(cluster.ClusterName, schemas, url)` gives; and it
depends on nothing else: a run of `New` with the same `URLParser` and the same cluster name,
whatever its access control, store wrapper, fresh server, role bindings and schema steps,
installs a parser with the same results. -/
theorem New_URLParser_pure (env : Env Ctx Schemas RBAC URL ParsedURL Err AC Store Reg)
    (ctx : Ctx) (cluster : UserContext Schemas RBAC)
    (srv : Server Schemas URL ParsedURL Err AC Store Reg)
    (h : (New env ctx cluster).handler = some srv) :
    (∀ (s : Schemas) (u : URL), srv.URLParser s u = env.URLParser cluster.ClusterName s u) ∧
      ∀ (env' : Env Ctx Schemas RBAC URL ParsedURL Err AC Store Reg) (ctx' : Ctx)
        (cluster' : UserContext Schemas RBAC)
        (srv' : Server Schemas URL ParsedURL Err AC Store Reg),
        env'.URLParser = env.URLParser → cluster'.ClusterName = cluster.ClusterName →
        (New env' ctx' cluster').handler = some srv' →
        ∀ (s : Schemas) (u : URL), srv'.URLParser s u = srv.URLParser s u := by
  obtain ⟨-, -, rfl⟩ := New_handler_some env ctx cluster srv h
  refine ⟨fun s u => rfl, ?_⟩
  intro env' ctx' cluster' srv' hp hn h' s u
  obtain ⟨-, -, rfl⟩ := New_handler_some env' ctx' cluster' srv' h'
  simp only [configured, hp, hn]

/-- C2: the store wrapper of the server `New` returns is `store.ProjectSetter` applied to
the store wrapper `w0` of the freshly built server, so on every backing store the pipeline
is `ProjectSetter(w0)(s)`; the same holds of the server `AddSchemas` was called on. For
every `ProjectSetter` that puts a decorator around what its argument builds, the pipeline
on `s` is that decorator around `w0(s)`: `w0` stays between the decorator and the store. -/
theorem New_StoreWrapper_wraps (env : Env Ctx Schemas RBAC URL ParsedURL Err AC Store Reg)
    (ctx : Ctx) (cluster : UserContext Schemas RBAC)
    (srv : Server Schemas URL ParsedURL Err AC Store Reg)
    (h : (New env ctx cluster).handler = some srv) :
    srv.StoreWrapper = env.ProjectSetter env.NewAPIServer.StoreWrapper ∧
      (∀ s : Store, srv.StoreWrapper s = env.ProjectSetter env.NewAPIServer.StoreWrapper s) ∧
      (New env ctx cluster).registeredOn.map Server.StoreWrapper =
        some (env.ProjectSetter env.NewAPIServer.StoreWrapper) ∧
      ∀ decorate : Store → Store,
        (∀ (next : Store → Store) (s : Store), env.ProjectSetter next s = decorate (next s)) →
        ∀ s : Store, srv.StoreWrapper s = decorate (env.NewAPIServer.StoreWrapper s) := by
  obtain ⟨hs, ha, rfl⟩ := New_handler_some env ctx cluster srv h
  rw [New_of_success env ctx cluster hs ha]
  exact ⟨rfl, fun _ => rfl, rfl, fun _ hd s => hd env.NewAPIServer.StoreWrapper s⟩

/-- C3: `New` returns an error exactly when `setup.Schemas` fails or `AddSchemas` (called on
the configured server) fails. When `setup.Schemas` fails, its error is returned unchanged
with a nil handler, and the run consists of that one step: no server is built and
`AddSchemas` is not called. When `AddSchemas` fails, its error is returned unchanged with a
nil handler. When both succeed, the configured server is returned with a nil error. -/
theorem New_swallows_no_failure (env : Env Ctx Schemas RBAC URL ParsedURL Err AC Store Reg)
    (ctx : Ctx) (cluster : UserContext Schemas RBAC) :
    ((New env ctx cluster).err ≠ none ↔
        ((env.setupSchemas ctx cluster cluster.Schemas).1 ≠ none ∨
          ((env.setupSchemas ctx cluster cluster.Schemas).1 = none ∧
            (env.AddSchemas (configured env cluster)
              (env.setupSchemas ctx cluster cluster.Schemas).2).1 ≠ none))) ∧
      (∀ e : Err, (env.setupSchemas ctx cluster cluster.Schemas).1 = some e →
        (New env ctx cluster).err = some e ∧ (New env ctx cluster).handler = none ∧
          (New env ctx cluster).steps = [Step.setupSchemas] ∧
          (New env ctx cluster).registeredOn = none) ∧
      (∀ e : Err, (env.setupSchemas ctx cluster cluster.Schemas).1 = none →
        (env.AddSchemas (configured env cluster)
          (env.setupSchemas ctx cluster cluster.Schemas).2).1 = some e →
        (New env ctx cluster).err = some e ∧ (New env ctx cluster).handler = none ∧
          (New env ctx cluster).registeredOn = some (configured env cluster)) ∧
      ((env.setupSchemas ctx cluster cluster.Schemas).1 = none →
        (env.AddSchemas (configured env cluster)
          (env.setupSchemas ctx cluster cluster.Schemas).2).1 = none →
        (New env ctx cluster).err = none ∧
          (New env ctx cluster).handler =
            some { configured env cluster with
              schemas := (env.AddSchemas (configured env cluster)
                (env.setupSchemas ctx cluster cluster.Schemas).2).2 }) := by
  refine ⟨?_, ?_, ?_, ?_⟩
  · cases hs : (env.setupSchemas ctx cluster cluster.Schemas).1 with
    | some e =>
      rw [New_of_setup_error env ctx cluster e hs]
      simp
    | none =>
      cases ha : (env.AddSchemas (configured env cluster)
          (env.setupSchemas ctx cluster cluster.Schemas).2).1 with
      | some e =>
        rw [New_of_add_error env ctx cluster e hs ha]
        simp
      | none =>
        rw [New_of_success env ctx cluster hs ha]
        simp
  · intro e hs
    rw [New_of_setup_error env ctx cluster e hs]
    exact ⟨rfl, rfl, rfl, rfl⟩
  · intro e hs ha
    rw [New_of_add_error env ctx cluster e hs ha]
    exact ⟨rfl, rfl, rfl⟩
  · intro hs ha
    rw [New_of_success env ctx cluster hs ha]
    exact ⟨rfl, rfl⟩

/-- C8: on every successful run of `New` the steps are, in this order, `setup.Schemas`,
`NewAPIServer`, the assignment of the access control, of the URL parser and of the store
wrapper, and `AddSchemas`: each hook is assigned exactly once, each before `AddSchemas`,
and nothing follows `AddSchemas`. The server `AddSchemas` is called on already carries the
project-setting store wrapper, and the returned server has the same three hooks. What
`AddSchemas` receives is pinned by what it returns: for every `AddSchemas`, the call that
succeeded is the one on the server with the three hooks assigned (the access control of the
cluster's RBAC, the parser of the cluster's name, `ProjectSetter(w0)`), with the schema
collection `setup.Schemas` left, and the schema collection of the returned server is the
one that call produced. -/
theorem New_fixes_pipeline_before_AddSchemas
    (env : Env Ctx Schemas RBAC URL ParsedURL Err AC Store Reg)
    (ctx : Ctx) (cluster : UserContext Schemas RBAC)
    (srv : Server Schemas URL ParsedURL Err AC Store Reg)
    (h : (New env ctx cluster).handler = some srv) :
    (New env ctx cluster).steps =
        [ Step.setupSchemas, Step.newAPIServer, Step.assignAccessControl
        , Step.assignURLParser, Step.assignStoreWrapper, Step.addSchemas ] ∧
      (New env ctx cluster).steps.count Step.assignAccessControl = 1 ∧
      (New env ctx cluster).steps.count Step.assignURLParser = 1 ∧
      (New env ctx cluster).steps.count Step.assignStoreWrapper = 1 ∧
      (New env ctx cluster).steps.count Step.addSchemas = 1 ∧
      (New env ctx cluster).steps.indexOf Step.assignAccessControl <
        (New env ctx cluster).steps.indexOf Step.addSchemas ∧
      (New env ctx cluster).steps.indexOf Step.assignURLParser <
        (New env ctx cluster).steps.indexOf Step.addSchemas ∧
      (New env ctx cluster).steps.indexOf Step.assignStoreWrapper <
        (New env ctx cluster).steps.indexOf Step.addSchemas ∧
      (New env ctx cluster).steps.getLast? = some Step.addSchemas ∧
      (New env ctx cluster).registeredOn = some (configured env cluster) ∧
      (configured env cluster).StoreWrapper =
        env.ProjectSetter env.NewAPIServer.StoreWrapper ∧
      srv.StoreWrapper = (configured env cluster).StoreWrapper ∧
      srv.AccessControl = (configured env cluster).AccessControl ∧
      srv.URLParser = (configured env cluster).URLParser ∧
      (env.AddSchemas
          { AccessControl := env.NewAccessControl cluster.RBAC
          , URLParser := fun s u => env.URLParser cluster.ClusterName s u
          , StoreWrapper := env.ProjectSetter env.NewAPIServer.StoreWrapper
          , schemas := env.NewAPIServer.schemas }
          (env.setupSchemas ctx cluster cluster.Schemas).2).1 = none ∧
      srv.schemas =
        (env.AddSchemas
          { AccessControl := env.NewAccessControl cluster.RBAC
          , URLParser := fun s u => env.URLParser cluster.ClusterName s u
          , StoreWrapper := env.ProjectSetter env.NewAPIServer.StoreWrapper
          , schemas := env.NewAPIServer.schemas }
          (env.setupSchemas ctx cluster cluster.Schemas).2).2 := by
  obtain ⟨hs, ha, rfl⟩ := New_handler_some env ctx cluster srv h
  have hrun := New_of_success env ctx cluster hs ha
  have hsteps : (New env ctx cluster).steps = fullRun := by rw [hrun]
  have hreg : (New env ctx cluster).registeredOn = some (configured env cluster) := by
    rw [hrun]
  rw [hsteps, hreg]
  refine ⟨rfl, by decide, by decide, by decide, by decide, by decide, by decide, by decide,
    rfl, rfl, rfl, rfl, rfl, rfl, ha, rfl⟩

end ServerTheorems

/-! ## Theorems: the collaborators as the specification describes them -/

namespace Model

/-- The parser fails with `UnknownResourceType` when the type-selecting segment names no
schema of the schema set. -/
theorem URLParser_unknown_type (rules : ParseRules) (clusterName : String)
    (schemas : Schemas) (url : URL) (seg : String)
    (hseg : typeSegment rules url = some seg)
    (habs : schemas.lookup (rules.typeOf seg) = none) :
    URLParser rules clusterName schemas url = (none, some ErrorKind.UnknownResourceType) := by
  unfold typeSegment at hseg
  unfold URLParser
  rcases hsplit : splitScope rules (segments url.path) with ⟨pathScope, rest⟩
  rw [hsplit] at hseg
  cases rest with
  | nil => rfl
  | cons first more =>
    simp only [List.head?_cons, Option.some.injEq] at hseg
    subst hseg
    simp only [habs]

theorem foldl_or_eq_any {α : Type} (f : α → Bool) (xs : List α) (init : Bool) :
    xs.foldl (fun acc x => acc || f x) init = (init || xs.any f) := by
  induction xs generalizing init with
  | nil => simp
  | cons x xs ih => simp [List.foldl_cons, ih, Bool.or_assoc]

/-- The decision allows exactly when some listed binding qualifies. -/
theorem Authorize_allowed (bindings : List RoleBinding) (p : Principal) (verb : Verb)
    (locator : ResourceLocator) :
    (Authorize bindings p verb locator).allowed =
      bindings.any (fun b => b.qualifies p verb locator) := by
  simp [Authorize, foldl_or_eq_any]

theorem Authorize_deny (bindings : List RoleBinding) (p : Principal) (verb : Verb)
    (locator : ResourceLocator)
    (h : ∀ b ∈ bindings, b.qualifies p verb locator = false) :
    Authorize bindings p verb locator = { allowed := false, scopeFilter := none } := by
  have hall : (Authorize bindings p verb locator).allowed = false := by
    rw [Authorize_allowed]
    simpa using h
  have hfold : bindings.foldl (fun acc b => acc || b.qualifies p verb locator) false = false := by
    simpa [Authorize] using hall
  simp [Authorize, hfold]

/-- A binding limited to a project has that project as its limit. -/
theorem limit_of_scope (b : RoleBinding) (project : String)
    (h : b.scope = Scope.within project) : b.limit = some project := by
  simp [RoleBinding.limit, h]

/-- The scope filter of a `list` or `create` whose permissions are all limited to one
project is that project. -/
theorem scopeFilter_of_limited (granting : List RoleBinding) (verb : Verb) (project : String)
    (hverb : verb = Verb.list ∨ verb = Verb.create) (hne : granting ≠ [])
    (hall : ∀ b ∈ granting, b.scope = Scope.within project) :
    scopeFilter granting verb = some project := by
  cases granting with
  | nil => exact absurd rfl hne
  | cons b rest =>
    have hlim : ∀ c ∈ b :: rest, c.limit = some project :=
      fun c hc => limit_of_scope c project (hall c hc)
    have hsome : (b :: rest).all (fun c => c.limit.isSome) = true := by
      rw [List.all_eq_true]
      intro c hc
      rw [hlim c hc]
      rfl
    have hhead : (b :: rest).head?.bind RoleBinding.limit = some project := by
      simp [hlim b (List.mem_cons_self b rest)]
    unfold scopeFilter
    rw [hsome, hhead]
    rcases hverb with rfl | rfl <;> rfl

/-- A `list` or `create` granted by project-scoped bindings only, all of one project, is
allowed with that project as scope filter. -/
theorem Authorize_project_scoped (bindings : List RoleBinding) (p : Principal) (verb : Verb)
    (locator : ResourceLocator) (project : String)
    (hverb : verb = Verb.list ∨ verb = Verb.create)
    (hgrant : ∃ b ∈ bindings, b.qualifies p verb locator = true)
    (hscoped : ∀ b ∈ bindings, b.qualifies p verb locator = true →
      b.scope = Scope.within project) :
    Authorize bindings p verb locator = { allowed := true, scopeFilter := some project } := by
  obtain ⟨b, hb, hq⟩ := hgrant
  have hany : bindings.any (fun b => b.qualifies p verb locator) = true :=
    List.any_eq_true.mpr ⟨b, hb, hq⟩
  have hfold : bindings.foldl (fun acc b => acc || b.qualifies p verb locator) false = true := by
    rw [foldl_or_eq_any, hany]
    rfl
  have hfilter : scopeFilter (bindings.filter (fun b => b.qualifies p verb locator)) verb
      = some project := by
    apply scopeFilter_of_limited _ verb project hverb
    · exact List.ne_nil_of_mem (List.mem_filter.mpr ⟨hb, hq⟩)
    · intro c hc
      exact hscoped c (List.mem_filter.mp hc).1 (List.mem_filter.mp hc).2
  simp [Authorize, hfold, hfilter]

/-- The project-assignment decorator on a `create` that carries a scope filter and a
payload without project: the payload is forwarded with the project set. -/
theorem projectSetter_create_assigns {σ : Type} (inner : Store σ) (op : StoreOperation)
    (payload : Payload) (authorized : String) (st : σ)
    (hverb : op.verb = Verb.create) (hscope : op.scopeFilter = some authorized)
    (hpay : op.payload = some payload) (hproj : payload.project = none) :
    (projectSetter inner).createUpdate op st =
      inner.createUpdate
        { op with payload := some { payload with project := some authorized } } st := by
  simp [projectSetter, assignProject, hverb, hscope, hpay, hproj]

/-- The project-assignment decorator on a `create` whose payload declares a project other
than the scope filter: `ScopeConflict`, and the inner store is not reached. -/
theorem projectSetter_create_conflict {σ : Type} (inner : Store σ) (op : StoreOperation)
    (payload : Payload) (authorized declared : String) (st : σ)
    (hverb : op.verb = Verb.create) (hscope : op.scopeFilter = some authorized)
    (hpay : op.payload = some payload) (hproj : payload.project = some declared)
    (hne : declared ≠ authorized) :
    (projectSetter inner).createUpdate op st = (Outcome.failure ErrorKind.ScopeConflict, st) := by
  simp [projectSetter, assignProject, hverb, hscope, hpay, hproj, hne]

end Model

section ModelTheorems

open Model

variable {Ctx Schemas RBAC URL ParsedURL Err AC Store Reg : Type}

/-- C4: with the parser of section 4.1 as `URLParser`, the parser of the server `New`
returns fails with `UnknownResourceType` and returns no locator on every URL whose
type-selecting segment names a type that the schema set lacks. -/
theorem New_URLParser_unknown_type (rules : ParseRules)
    (env : Env Ctx Model.Schemas RBAC Model.URL (Option ResourceLocator) ErrorKind AC Store Reg)
    (ctx : Ctx) (cluster : UserContext Model.Schemas RBAC)
    (srv : Server Model.Schemas Model.URL (Option ResourceLocator) ErrorKind AC Store Reg)
    (h : (New { env with URLParser := Model.URLParser rules } ctx cluster).handler = some srv)
    (schemas : Model.Schemas) (url : Model.URL) (seg : String)
    (hseg : typeSegment rules url = some seg)
    (habs : schemas.lookup (rules.typeOf seg) = none) :
    srv.URLParser schemas url = (none, some ErrorKind.UnknownResourceType) := by
  obtain ⟨-, -, rfl⟩ := New_handler_some _ ctx cluster srv h
  exact URLParser_unknown_type rules cluster.ClusterName schemas url seg hseg habs

/-- C5: with the access control of section 4.2 as `rbac.NewAccessControl`, the access
control of the server `New` returns denies (with `Forbidden` and no scope filter) when no
binding listed for the principal qualifies; and for a cluster whose store lists one more
binding for the principal, the decision is allow when that binding qualifies, and is
allow whenever it was allow without the binding. -/
theorem New_AccessControl_additive
    (env : Env Ctx Schemas BindingStore URL ParsedURL Err AccessControl Store Reg)
    (ctx : Ctx) (cluster : UserContext Schemas BindingStore)
    (srv : Server Schemas URL ParsedURL Err AccessControl Store Reg)
    (h : (New { env with NewAccessControl := Model.NewAccessControl } ctx cluster).handler
          = some srv)
    (p : Principal) (verb : Verb) (locator : ResourceLocator) :
    ((∀ b ∈ cluster.RBAC p, b.qualifies p verb locator = false) →
        srv.AccessControl p verb locator = { allowed := false, scopeFilter := none } ∧
          (srv.AccessControl p verb locator).error = some ErrorKind.Forbidden) ∧
      ∀ (ctx' : Ctx) (cluster' : UserContext Schemas BindingStore)
        (srv' : Server Schemas URL ParsedURL Err AccessControl Store Reg)
        (b : RoleBinding) (before after : List RoleBinding),
        (New { env with NewAccessControl := Model.NewAccessControl } ctx' cluster').handler
          = some srv' →
        cluster.RBAC p = before ++ after →
        cluster'.RBAC p = before ++ b :: after →
        (b.qualifies p verb locator = true →
            (srv'.AccessControl p verb locator).allowed = true) ∧
          ((srv.AccessControl p verb locator).allowed = true →
            (srv'.AccessControl p verb locator).allowed = true) := by
  obtain ⟨-, -, rfl⟩ := New_handler_some _ ctx cluster srv h
  refine ⟨?_, ?_⟩
  · intro hnone
    have hdeny := Authorize_deny (cluster.RBAC p) p verb locator hnone
    refine ⟨hdeny, ?_⟩
    show (Authorize (cluster.RBAC p) p verb locator).error = some ErrorKind.Forbidden
    rw [hdeny]
    rfl
  · intro ctx' cluster' srv' b before after h' hold hnew
    obtain ⟨-, -, rfl⟩ := New_handler_some _ ctx' cluster' srv' h'
    show (b.qualifies p verb locator = true →
        (Authorize (cluster'.RBAC p) p verb locator).allowed = true) ∧
      ((Authorize (cluster.RBAC p) p verb locator).allowed = true →
        (Authorize (cluster'.RBAC p) p verb locator).allowed = true)
    rw [Authorize_allowed, Authorize_allowed, hold, hnew]
    simp only [List.any_append, List.any_cons, Bool.or_eq_true]
    refine ⟨fun hb => Or.inr (Or.inl hb), ?_⟩
    rintro (hl | hr)
    · exact Or.inl hl
    · exact Or.inr (Or.inr hr)

/-- C6: with the access control of section 4.2 as `rbac.NewAccessControl` and the
decorator of section 4.3 as `store.ProjectSetter`, take a `create` that is authorized under
a project-scoped grant: some binding listed for the principal grants it, and every binding
that grants it is scoped to the one project. Then the access control of the server `New`
returns allows it with that project as scope filter, and the operation built from that
decision goes through the store wrapper of the server as follows: a payload without project
is forwarded to the wrapped store `w0(s)` with the project set to the authorized one; a
payload declaring another project fails with `ScopeConflict`, and the state of the backing
store is the one before the call. -/
theorem New_ProjectSetter_assigns {σ : Type}
    (env : Env Ctx Schemas BindingStore URL ParsedURL Err AccessControl (Model.Store σ) Reg)
    (ctx : Ctx) (cluster : UserContext Schemas BindingStore)
    (srv : Server Schemas URL ParsedURL Err AccessControl (Model.Store σ) Reg)
    (h : (New { env with NewAccessControl := Model.NewAccessControl
                       , ProjectSetter := Model.ProjectSetter } ctx cluster).handler = some srv)
    (p : Principal) (locator : ResourceLocator) (payload : Payload) (project : String)
    (backing : Model.Store σ) (st : σ)
    (hgrant : ∃ b ∈ cluster.RBAC p, b.qualifies p Verb.create locator = true)
    (hscoped : ∀ b ∈ cluster.RBAC p, b.qualifies p Verb.create locator = true →
      b.scope = Scope.within project) :
    srv.AccessControl p Verb.create locator = { allowed := true, scopeFilter := some project } ∧
      (payload.project = none →
        (srv.StoreWrapper backing).createUpdate
            (storeOperation Verb.create locator (some payload)
              (srv.AccessControl p Verb.create locator)) st =
          (env.NewAPIServer.StoreWrapper backing).createUpdate
            { verb := Verb.create, locator := locator
            , payload := some { payload with project := some project }
            , scopeFilter := some project } st) ∧
      ∀ declared : String, payload.project = some declared → declared ≠ project →
        (srv.StoreWrapper backing).createUpdate
            (storeOperation Verb.create locator (some payload)
              (srv.AccessControl p Verb.create locator)) st =
          (Outcome.failure ErrorKind.ScopeConflict, st) := by
  obtain ⟨-, -, rfl⟩ := New_handler_some _ ctx cluster srv h
  have hdec : Authorize (cluster.RBAC p) p Verb.create locator =
      { allowed := true, scopeFilter := some project } :=
    Authorize_project_scoped (cluster.RBAC p) p Verb.create locator project (Or.inr rfl)
      hgrant hscoped
  refine ⟨hdec, ?_, ?_⟩
  · intro hproj
    show (projectSetter (env.NewAPIServer.StoreWrapper backing)).createUpdate
        (storeOperation Verb.create locator (some payload)
          (Authorize (cluster.RBAC p) p Verb.create locator)) st = _
    rw [hdec]
    exact projectSetter_create_assigns _ _ payload project st rfl rfl rfl hproj
  · intro declared hproj hne
    show (projectSetter (env.NewAPIServer.StoreWrapper backing)).createUpdate
        (storeOperation Verb.create locator (some payload)
          (Authorize (cluster.RBAC p) p Verb.create locator)) st = _
    rw [hdec]
    exact projectSetter_create_conflict _ _ payload project declared st rfl rfl rfl hproj hne

end ModelTheorems

/-! ## The theorems at the concrete cluster -/

section Witnesses

open Model

/-- C1 at the concrete cluster: the installed parser is `URLParser "c-1"`, it parses the
scenario's URL to the scenario's locator, and the server built in an environment with
another access control and store decorator parses alike. -/
theorem New_URLParser_pure_witness :
    (New Demo.env () Demo.cluster).handler = some Demo.server ∧
      (∀ (s : Model.Schemas) (u : Model.URL),
        Demo.server.URLParser s u = URLParser Demo.rules "c-1" s u) ∧
      Demo.server.URLParser Demo.schemas Demo.podURL = (some Demo.podLocator, none) ∧
      (New Demo.envOther () Demo.clusterBound).handler = some Demo.serverOther ∧
      ∀ (s : Model.Schemas) (u : Model.URL),
        Demo.serverOther.URLParser s u = Demo.server.URLParser s u :=
  ⟨rfl, (New_URLParser_pure Demo.env () Demo.cluster Demo.server rfl).1, by decide, rfl,
    (New_URLParser_pure Demo.env () Demo.cluster Demo.server rfl).2
      Demo.envOther () Demo.clusterBound Demo.serverOther rfl rfl rfl⟩

/-- C2 at the concrete cluster: the fresh server wraps nothing (`id`), the returned
server's store wrapper is `ProjectSetter id`, and on the counting store it is the
project-assignment decorator around `id countingStore`. -/
theorem New_StoreWrapper_wraps_witness :
    (New Demo.env () Demo.cluster).handler = some Demo.server ∧
      Demo.server.StoreWrapper = Demo.env.ProjectSetter Demo.env.NewAPIServer.StoreWrapper ∧
      Demo.server.StoreWrapper Demo.countingStore = Model.ProjectSetter id Demo.countingStore ∧
      Demo.server.StoreWrapper Demo.countingStore =
        Model.projectSetter (id Demo.countingStore) :=
  ⟨rfl, (New_StoreWrapper_wraps Demo.env () Demo.cluster Demo.server rfl).1,
    (New_StoreWrapper_wraps Demo.env () Demo.cluster Demo.server rfl).2.1 Demo.countingStore,
    (New_StoreWrapper_wraps Demo.env () Demo.cluster Demo.server rfl).2.2.2 Model.projectSetter
      (fun _ _ => rfl) Demo.countingStore⟩

/-- C3 at three concrete environments: `setup.Schemas` fails, `AddSchemas` fails, both
succeed. -/
theorem New_swallows_no_failure_witness :
    ((New Demo.envSetupFails () Demo.cluster).err = some ErrorKind.Unavailable ∧
        (New Demo.envSetupFails () Demo.cluster).handler = none ∧
        (New Demo.envSetupFails () Demo.cluster).steps = [Step.setupSchemas] ∧
        (New Demo.envSetupFails () Demo.cluster).registeredOn = none) ∧
      ((New Demo.envAddFails () Demo.cluster).err = some ErrorKind.Conflict ∧
        (New Demo.envAddFails () Demo.cluster).handler = none ∧
        (New Demo.envAddFails () Demo.cluster).registeredOn =
          some (configured Demo.envAddFails Demo.cluster)) ∧
      ((New Demo.env () Demo.cluster).err = none ∧
        (New Demo.env () Demo.cluster).handler = some Demo.server) :=
  ⟨(New_swallows_no_failure Demo.envSetupFails () Demo.cluster).2.1 ErrorKind.Unavailable rfl,
    (New_swallows_no_failure Demo.envAddFails () Demo.cluster).2.2.1 ErrorKind.Conflict rfl rfl,
    (New_swallows_no_failure Demo.env () Demo.cluster).2.2.2 rfl rfl⟩

/-- C8 at a concrete environment whose stores are the lists of the layers around them and
whose `AddSchemas` registers what the server's store wrapper makes of `store`: the six
steps in order, and the registered chain is `ProjectSetter` around `w0` around `store`, so
`AddSchemas` ran on the server that carried the project-setting wrapper. -/
theorem New_fixes_pipeline_before_AddSchemas_witness :
    (New Demo.envProbe () Demo.cluster).handler = some Demo.serverProbe ∧
      (New Demo.envProbe () Demo.cluster).steps =
        [ Step.setupSchemas, Step.newAPIServer, Step.assignAccessControl
        , Step.assignURLParser, Step.assignStoreWrapper, Step.addSchemas ] ∧
      Demo.serverProbe.schemas = ["ProjectSetter", "w0", "store"] ∧
      (New Demo.envProbe () Demo.cluster).handler.map Server.schemas =
        some ["ProjectSetter", "w0", "store"] :=
  ⟨rfl, (New_fixes_pipeline_before_AddSchemas Demo.envProbe () Demo.cluster Demo.serverProbe rfl).1,
    (New_fixes_pipeline_before_AddSchemas Demo.envProbe () Demo.cluster Demo.serverProbe
      rfl).2.2.2.2.2.2.2.2.2.2.2.2.2.2.2,
    rfl⟩

/-- C4 at the concrete cluster: `/projects/p-1/widgets/w-1` selects the type `widget`,
which the registry lacks, and the installed parser fails with `UnknownResourceType`. -/
theorem New_URLParser_unknown_type_witness :
    typeSegment Demo.rules Demo.widgetURL = some "widgets" ∧
      Demo.schemas.lookup (Demo.rules.typeOf "widgets") = none ∧
      Demo.server.URLParser Demo.schemas Demo.widgetURL =
        (none, some ErrorKind.UnknownResourceType) :=
  ⟨by decide, by decide,
    New_URLParser_unknown_type Demo.rules Demo.env () Demo.cluster Demo.server rfl
      Demo.schemas Demo.widgetURL "widgets" (by decide) (by decide)⟩

/-- C5 at the concrete cluster: without bindings the `get` of the pod is denied; with the
scenario's binding, which qualifies, it is allowed. -/
theorem New_AccessControl_additive_witness :
    Demo.server.AccessControl Demo.alice Verb.get Demo.podLocator =
        { allowed := false, scopeFilter := none } ∧
      (Demo.server.AccessControl Demo.alice Verb.get Demo.podLocator).error =
        some ErrorKind.Forbidden ∧
      Demo.viewerBinding.qualifies Demo.alice Verb.get Demo.podLocator = true ∧
      (Demo.serverBound.AccessControl Demo.alice Verb.get Demo.podLocator).allowed = true :=
  ⟨((New_AccessControl_additive Demo.env () Demo.cluster Demo.server rfl Demo.alice Verb.get
        Demo.podLocator).1 (fun _ hb => nomatch hb)).1,
    ((New_AccessControl_additive Demo.env () Demo.cluster Demo.server rfl Demo.alice Verb.get
        Demo.podLocator).1 (fun _ hb => nomatch hb)).2,
    by decide,
    ((New_AccessControl_additive Demo.env () Demo.cluster Demo.server rfl Demo.alice Verb.get
        Demo.podLocator).2 () Demo.clusterBound Demo.serverBound Demo.viewerBinding [] []
        rfl rfl rfl).1 (by decide)⟩

/-- The editor binding is the only one that grants the `create`, and it is scoped to
`p-1`. -/
theorem Demo.create_granted_in_p1 :
    (∃ b ∈ Demo.clusterEditor.RBAC Demo.alice,
        b.qualifies Demo.alice Verb.create Demo.podsLocator = true) ∧
      ∀ b ∈ Demo.clusterEditor.RBAC Demo.alice,
        b.qualifies Demo.alice Verb.create Demo.podsLocator = true →
        b.scope = Scope.within "p-1" := by
  refine ⟨⟨Demo.editorBinding, by simp [Demo.clusterEditor], by decide⟩, ?_⟩
  intro b hb _
  simp only [Demo.clusterEditor, List.mem_cons, List.mem_singleton, List.not_mem_nil,
    or_false] at hb
  rcases hb with rfl | rfl <;> rfl

/-- C6 at the concrete cluster, over a backing store that counts its calls: `alice`, editor
within `p-1`, creates a pod at `/projects/p-1/pods`. The decision carries the filter `p-1`;
the payload without project arrives with project `p-1` (one call), the payload declaring
`p-2` fails with `ScopeConflict` (no call). -/
theorem New_ProjectSetter_assigns_witness :
    (New Demo.env () Demo.clusterEditor).handler = some Demo.serverEditor ∧
      Demo.serverEditor.URLParser Demo.schemas Demo.podsURL = (some Demo.podsLocator, none) ∧
      Demo.serverEditor.AccessControl Demo.alice Verb.create Demo.podsLocator =
        { allowed := true, scopeFilter := some "p-1" } ∧
      (Demo.serverEditor.StoreWrapper Demo.countingStore).createUpdate
          (storeOperation Verb.create Demo.podsLocator (some (Demo.podPayload none))
            (Demo.serverEditor.AccessControl Demo.alice Verb.create Demo.podsLocator)) 0 =
        (Outcome.objects [Demo.podPayload (some "p-1")], 1) ∧
      (Demo.serverEditor.StoreWrapper Demo.countingStore).createUpdate
          (storeOperation Verb.create Demo.podsLocator (some (Demo.podPayload (some "p-2")))
            (Demo.serverEditor.AccessControl Demo.alice Verb.create Demo.podsLocator)) 0 =
        (Outcome.failure ErrorKind.ScopeConflict, 0) :=
  ⟨rfl, by decide,
    (New_ProjectSetter_assigns Demo.env () Demo.clusterEditor Demo.serverEditor rfl Demo.alice
      Demo.podsLocator (Demo.podPayload none) "p-1" Demo.countingStore 0
      Demo.create_granted_in_p1.1 Demo.create_granted_in_p1.2).1,
    (New_ProjectSetter_assigns Demo.env () Demo.clusterEditor Demo.serverEditor rfl Demo.alice
      Demo.podsLocator (Demo.podPayload none) "p-1" Demo.countingStore 0
      Demo.create_granted_in_p1.1 Demo.create_granted_in_p1.2).2.1 rfl,
    (New_ProjectSetter_assigns Demo.env () Demo.clusterEditor Demo.serverEditor rfl Demo.alice
      Demo.podsLocator (Demo.podPayload (some "p-2")) "p-1" Demo.countingStore 0
      Demo.create_granted_in_p1.1 Demo.create_granted_in_p1.2).2.2 "p-2" rfl (by decide)⟩

end Witnesses

end Rancher
